import Mathlib

/-!
Verification of the session-management layer of the `pinata` chess CLI
(`src/cmd/game.go`).

The program delegates chess rules, notation parsing and serialization to an
external collaborator library (`github.com/abperiasamy/chess`).  The
collaborator is embedded here as an explicit environment: opaque data the
session layer only reads (move history, outcome string, method string, legal
moves of the current position) become fields of `Game`, and the collaborator
operations the session layer calls (file read, PGN parse, game construction,
serialization, SAN encoding) become explicit parameters or modelled
definitions, each marked `Modelled from the spec:`.

Console styling (bold/color escape sequences added by `gConsole`) is elided:
output is modelled as the plain message text.
-/

namespace Pinata

/-- Modelled from the spec: a legal move of the collaborator's position object
is opaque to the session layer; the only operation applied to it is
algebraic-notation encoding, so a move is modelled as carrying its
notation text. -/
structure Move where
  san : String
deriving DecidableEq

/-- Modelled from the spec: the collaborator's position object, of which the
session layer only consults the legal-move enumeration
(`Position().ValidMoves()`). -/
structure Position where
  validMoves : List Move
deriving DecidableEq

/-- The collaborator's `chess.Game` record as seen by the session layer:
tag pairs (key/value metadata), the move history, the outcome signal
(`Outcome` is a string type in the collaborator: `"*"`, `"1-0"`, `"0-1"`,
`"1/2-1/2"`), the method classification string, and the current position. -/
structure Game where
  tags : List (String × String)
  moveHistory : List String
  outcome : String
  method : String
  position : Position
deriving DecidableEq

/-- `chess.NoOutcome` -/
def NoOutcome : String := "*"

/-- `chess.WhiteWon` -/
def WhiteWon : String := "1-0"

/-- `chess.BlackWon` -/
def BlackWon : String := "0-1"

/-- `chess.Draw` -/
def DrawOutcome : String := "1/2-1/2"

/-- `chess.Color`, as far as the session layer uses it. -/
inductive Color where
  | white
  | black
deriving DecidableEq

/-- The globals `gHumanIsBlack` and `gEngineBinary` shared across the
load/save/report flow. -/
structure SessionState where
  gHumanIsBlack : Bool
  gEngineBinary : String
deriving DecidableEq

/-- Modelled from the spec (§4.1): the collaborator's tag-pair update,
`game.AddTagPair(k, v)`, which idempotently overwrites the existing entry for
the key or inserts a new one (the update-or-append loop of the collaborator
library, missing from src). -/
def setTagList : List (String × String) → String → String → List (String × String)
  | [], k, v => [(k, v)]
  | p :: rest, k, v => if p.1 = k then (k, v) :: rest else p :: setTagList rest k v

/-- `game.AddTagPair(key, value)` on a live record. -/
def AddTagPair (g : Game) (key value : String) : Game :=
  { g with tags := setTagList g.tags key value }

/-- `GetTagPair(game, key)` from `src/cmd/game.go`: returns the value for
`key` when the record is non-null and holds the tag, and the empty string
otherwise.  The inner lookup is the collaborator's `game.GetTagPair(key)`
(first entry with the key, modelled from the spec). -/
def GetTagPair (game : Option Game) (key : String) : String :=
  match game with
  | some g =>
    match g.tags.find? (fun p => p.1 = key) with
    | some tp => tp.2
    | none => ""
  | none => ""

theorem find_setTagList_same (l : List (String × String)) (k v : String) :
    (setTagList l k v).find? (fun p => p.1 = k) = some (k, v) := by
  induction l with
  | nil => simp [setTagList]
  | cons p rest ih =>
    by_cases h : p.1 = k
    · simp [setTagList, h]
    · simp [setTagList, h, List.find?, ih]

theorem find_setTagList_other (l : List (String × String)) (k v k2 : String)
    (h : k2 ≠ k) :
    (setTagList l k v).find? (fun p => p.1 = k2) = l.find? (fun p => p.1 = k2) := by
  have h2 : ¬ (k = k2) := fun hh => h hh.symm
  induction l with
  | nil => simp [setTagList, List.find?, h2]
  | cons p rest ih =>
    by_cases hp : p.1 = k
    · subst hp
      simp [setTagList, List.find?, h2]
    · by_cases hp2 : p.1 = k2
      · simp [setTagList, hp, List.find?, hp2, h]
      · simp [setTagList, hp, List.find?, hp2, ih]

theorem getTag_addTag_same (g : Game) (k v : String) :
    GetTagPair (some (AddTagPair g k v)) k = v := by
  simp [GetTagPair, AddTagPair, find_setTagList_same]

theorem getTag_addTag_other (g : Game) (k v k2 : String) (h : k2 ≠ k) :
    GetTagPair (some (AddTagPair g k v)) k2 = GetTagPair (some g) k2 := by
  simp [GetTagPair, AddTagPair, find_setTagList_other _ _ _ _ h]

theorem addTag_moveHistory (g : Game) (k v : String) :
    (AddTagPair g k v).moveHistory = g.moveHistory := rfl

theorem addTag_outcome (g : Game) (k v : String) :
    (AddTagPair g k v).outcome = g.outcome := rfl

/-- Modelled from the spec (§4.3 step 6, §6): the collaborator's canonical
text serialization `game.String()` — bracketed tag-pair lines followed by the
movetext and the result token.  Its exact internal format is the
collaborator's; the session layer only appends a newline to it. -/
def gameString (g : Game) : String :=
  String.join (g.tags.map (fun p => "[" ++ p.1 ++ " \"" ++ p.2 ++ "\"]\n")) ++
    String.intercalate " " g.moveHistory ++ " " ++ g.outcome

/-- The environment `loadPGN` runs against: the result of `ioutil.ReadFile`
on the requested path, and the collaborator operations `chess.PGN` (parse,
`none` on parse error) and `chess.NewGame` (construct a live game, `none`
when no game results). -/
structure LoadEnv where
  readFile : Option String
  parsePGN : String → Option Game
  newGame : Game → Option Game

/-- What a call to `loadPGN` produces: the returned record (null on any
failure), the global session state after the call, and the console output. -/
structure LoadResult where
  game : Option Game
  state : SessionState
  output : List String
deriving DecidableEq

/-- `loadPGN(filename)` from `src/cmd/game.go`: read the file, parse it,
seed a live game, reject files not generated by pinata (wrong `Annotator`
tag, or empty `White`/`Black` tag), then restore the session globals from the
`White`/`Black` tags (`"Human"` marks the human side, the other value is the
engine binary). -/
def loadPGN (env : LoadEnv) (st : SessionState) (filename : String) : LoadResult :=
  match env.readFile with
  | none => ⟨none, st, ["Unable to read " ++ filename ++ "."]⟩
  | some pgnDat =>
    match env.parsePGN pgnDat with
    | none => ⟨none, st, [filename ++ " is not a valid PGN file."]⟩
    | some pgn =>
      match env.newGame pgn with
      | none => ⟨none, st, ["Unable to initialize a new game from " ++ filename ++ "."]⟩
      | some game =>
        let tpAnnotator := GetTagPair (some game) "Annotator"
        let tpWhite := GetTagPair (some game) "White"
        let tpBlack := GetTagPair (some game) "Black"
        if tpAnnotator ≠ "pinata" ∨ tpWhite = "" ∨ tpBlack = "" then
          ⟨none, st, [filename ++ " is not generated by Pinata."]⟩
        else if tpBlack = "Human" then
          ⟨some game, ⟨true, tpWhite⟩,
            ["You are playing Black against " ++ tpWhite ++ "."]⟩
        else
          ⟨some game, ⟨false, tpBlack⟩,
            ["You are playing White against " ++ tpBlack ++ "."]⟩

/-- `humanColor()` from `src/cmd/game.go`. -/
def humanColor (st : SessionState) : Color :=
  if st.gHumanIsBlack then Color.black else Color.white

/-- Go's `fmt.Sprintf("%02d", n)` for the month/day fields: decimal text,
zero-padded on the left to two digits. -/
def pad2 (n : Nat) : String :=
  if n < 10 then "0" ++ toString n else toString n

/-- The date string `fmt.Sprintf("%d-%02d-%02d", year, month, day)` built by
`savePGN`. -/
def dateString (year month day : Nat) : String :=
  toString year ++ "-" ++ pad2 month ++ "-" ++ pad2 day

/-- The environment `savePGN` runs against: whether `os.Create` succeeds on
the destination path, whether the subsequent `WriteString` succeeds, and the
current date (`time.Now()`). -/
structure SaveEnv where
  createOk : Bool
  writeOk : Bool
  year : Nat
  month : Nat
  day : Nat

/-- What a call to `savePGN` produces: the record after the call (`savePGN`
mutates the record it is given through a pointer), whether a non-nil error
was returned, the content written to the file (`none` when nothing was
written), and the console output. -/
structure SaveResult where
  game : Game
  err : Bool
  written : Option String
  output : List String
deriving DecidableEq

/-- `savePGN(game, filename)` from `src/cmd/game.go`: create the file (abort
on failure), stamp the `Annotator`, `Date`, `Result` and `White`/`Black`
tags onto the record, then write the serialized game plus a newline. -/
def savePGN (env : SaveEnv) (st : SessionState) (game : Game) (filename : String) :
    SaveResult :=
  if env.createOk then
    let g1 := AddTagPair game "Annotator" "pinata"
    let curDate := dateString env.year env.month env.day
    let g2 := AddTagPair g1 "Date" curDate
    let g3 := AddTagPair g2 "Result" g2.outcome
    let g4 :=
      if humanColor st = Color.white then
        AddTagPair (AddTagPair g3 "White" "Human") "Black" st.gEngineBinary
      else
        AddTagPair (AddTagPair g3 "White" st.gEngineBinary) "Black" "Human"
    if env.writeOk then
      ⟨g4, false, some (gameString g4 ++ "\n"), []⟩
    else
      ⟨g4, true, none, ["Unable to save the game to " ++ filename]⟩
  else
    ⟨game, true, none, ["Unable to create " ++ filename]⟩

/-- The visible effect of one `isGameOver` call: either a normal return with
the boolean result and the printed lines, or a Go `panic` carrying the
offending outcome value. -/
inductive GameOverResult where
  | ret (b : Bool) (output : List String)
  | panicked (outcome : String)
deriving DecidableEq

/-- `isGameOver(game)` from `src/cmd/game.go`, with the record it operated on
threaded through explicitly (the function only queries `Outcome()` and
`Method()`; no statement assigns to the record, so it comes back unchanged). -/
def isGameOver (game : Game) : GameOverResult × Game :=
  if game.outcome = NoOutcome then
    (GameOverResult.ret false [], game)
  else if game.outcome = DrawOutcome then
    (GameOverResult.ret true ["Game Draw (" ++ game.method ++ ")"], game)
  else if game.outcome = WhiteWon then
    (GameOverResult.ret true ["White Won (" ++ game.method ++ ")"], game)
  else if game.outcome = BlackWon then
    (GameOverResult.ret true ["Black Won (" ++ game.method ++ ")"], game)
  else
    (GameOverResult.panicked game.outcome, game)

/-- Modelled from the spec (§6): the collaborator's algebraic-notation
encoder `chess.Encoder.Encode(chess.AlgebraicNotation{}, pos, move)`; a move
is opaque and carries its notation text. -/
def encodeSAN (_pos : Position) (m : Move) : String :=
  m.san

/-- `validMoves(game)` from `src/cmd/game.go`: one space-joined display line
(every legal move with a space in front of it). -/
def validMoves (game : Game) : String :=
  game.position.validMoves.foldl
    (fun moves move => moves ++ " " ++ encodeSAN game.position move) ""

/-- `validMovesConstructor()` from `src/cmd/game.go`: a readline-completion
closure over the global game that ignores its argument and lists every legal
move in notation form. -/
def validMovesConstructor (gGame : Game) : String → List String :=
  fun _ => gGame.position.validMoves.map (fun move => encodeSAN gGame.position move)

theorem savePGN_tags (env : SaveEnv) (st : SessionState) (g : Game) (fn : String)
    (hc : env.createOk = true) :
    GetTagPair (some (savePGN env st g fn).game) "Annotator" = "pinata" ∧
    GetTagPair (some (savePGN env st g fn).game) "Date" =
      dateString env.year env.month env.day ∧
    GetTagPair (some (savePGN env st g fn).game) "Result" = g.outcome ∧
    (st.gHumanIsBlack = true →
      GetTagPair (some (savePGN env st g fn).game) "White" = st.gEngineBinary ∧
      GetTagPair (some (savePGN env st g fn).game) "Black" = "Human") ∧
    (st.gHumanIsBlack = false →
      GetTagPair (some (savePGN env st g fn).game) "White" = "Human" ∧
      GetTagPair (some (savePGN env st g fn).game) "Black" = st.gEngineBinary) ∧
    (savePGN env st g fn).game.moveHistory = g.moveHistory := by
  rcases st with ⟨hb, engine⟩
  have hgame : (savePGN env ⟨hb, engine⟩ g fn).game =
      AddTagPair (AddTagPair (AddTagPair (AddTagPair (AddTagPair g
        "Annotator" "pinata") "Date" (dateString env.year env.month env.day))
        "Result" g.outcome) "White" (if hb then engine else "Human"))
        "Black" (if hb then "Human" else engine) := by
    simp only [savePGN, hc, if_true, addTag_outcome, humanColor]
    cases hb <;> by_cases hw : env.writeOk <;> simp [hw]
  refine ⟨?_, ?_, ?_, ?_, ?_, ?_⟩ <;> rw [hgame]
  · rw [getTag_addTag_other _ _ _ _ (by decide), getTag_addTag_other _ _ _ _ (by decide),
      getTag_addTag_other _ _ _ _ (by decide), getTag_addTag_other _ _ _ _ (by decide),
      getTag_addTag_same]
  · rw [getTag_addTag_other _ _ _ _ (by decide), getTag_addTag_other _ _ _ _ (by decide),
      getTag_addTag_other _ _ _ _ (by decide), getTag_addTag_same]
  · rw [getTag_addTag_other _ _ _ _ (by decide), getTag_addTag_other _ _ _ _ (by decide),
      getTag_addTag_same]
  · intro h
    subst h
    constructor
    · rw [getTag_addTag_other _ _ _ _ (by decide), getTag_addTag_same]
      simp
    · rw [getTag_addTag_same]
      simp
  · intro h
    subst h
    constructor
    · rw [getTag_addTag_other _ _ _ _ (by decide), getTag_addTag_same]
      simp
    · rw [getTag_addTag_same]
      simp
  · rfl

theorem getTag_tags_eq (g1 g2 : Game) (h : g1.tags = g2.tags) (k : String) :
    GetTagPair (some g1) k = GetTagPair (some g2) k := by
  simp [GetTagPair, h]

theorem validMoves_foldl_length (pos : Position) (l : List Move) (s : String) :
    (l.foldl (fun moves move => moves ++ " " ++ encodeSAN pos move) s).length =
      s.length + (l.map (fun move => 1 + (encodeSAN pos move).length)).sum := by
  induction l generalizing s with
  | nil => simp
  | cons a t ih =>
    simp only [List.foldl_cons, List.map_cons, List.sum_cons, ih,
      String.length_append]
    have h1 : (" " : String).length = 1 := rfl
    rw [h1]
    ring

theorem validMoves_empty_iff_no_moves (g : Game) :
    validMoves g = "" ↔ g.position.validMoves = [] := by
  constructor
  · intro h
    have hl := validMoves_foldl_length g.position g.position.validMoves ""
    rw [show g.position.validMoves.foldl
        (fun moves move => moves ++ " " ++ encodeSAN g.position move) "" =
        validMoves g from rfl, h] at hl
    simp only [String.length_empty, Nat.zero_add] at hl
    rcases hm : g.position.validMoves with _ | ⟨a, t⟩
    · rfl
    · rw [hm] at hl
      simp at hl
      omega
  · intro h
    simp [validMoves, h]

/-- C5: the outcome reporter returns `false` and prints nothing on an
undecided game; prints "Game Draw (method)", "White Won (method)" or
"Black Won (method)" and returns `true` for the three terminal outcomes;
and any outcome value outside these four causes a panic. -/
theorem claim_isGameOver_classification (g : Game) :
    (g.outcome = NoOutcome → isGameOver g = (GameOverResult.ret false [], g)) ∧
    (g.outcome = DrawOutcome →
      isGameOver g = (GameOverResult.ret true ["Game Draw (" ++ g.method ++ ")"], g)) ∧
    (g.outcome = WhiteWon →
      isGameOver g = (GameOverResult.ret true ["White Won (" ++ g.method ++ ")"], g)) ∧
    (g.outcome = BlackWon →
      isGameOver g = (GameOverResult.ret true ["Black Won (" ++ g.method ++ ")"], g)) ∧
    (g.outcome ≠ NoOutcome → g.outcome ≠ DrawOutcome → g.outcome ≠ WhiteWon →
      g.outcome ≠ BlackWon →
      isGameOver g = (GameOverResult.panicked g.outcome, g)) := by
  refine ⟨?_, ?_, ?_, ?_, ?_⟩
  · intro h
    simp [isGameOver, h, NoOutcome, DrawOutcome, WhiteWon, BlackWon]
  · intro h
    simp [isGameOver, h, NoOutcome, DrawOutcome, WhiteWon, BlackWon]
  · intro h
    simp [isGameOver, h, NoOutcome, DrawOutcome, WhiteWon, BlackWon]
  · intro h
    simp [isGameOver, h, NoOutcome, DrawOutcome, WhiteWon, BlackWon]
  · intro h1 h2 h3 h4
    simp [isGameOver, h1, h2, h3, h4]

/-- C5 witness: a concrete outcome value outside the four defined ones
reaches the panic branch. -/
theorem claim_isGameOver_classification_witness :
    isGameOver ⟨[], [], "2-0", "m", ⟨[]⟩⟩ =
      (GameOverResult.panicked "2-0", ⟨[], [], "2-0", "m", ⟨[]⟩⟩) :=
  (claim_isGameOver_classification ⟨[], [], "2-0", "m", ⟨[]⟩⟩).2.2.2.2
    (by decide) (by decide) (by decide) (by decide)

/-- C6: calling the outcome reporter twice in succession with no intervening
move returns the same boolean and classification both times, and the call
does not mutate the record. -/
theorem claim_isGameOver_idempotent (g : Game) :
    isGameOver (isGameOver g).2 = isGameOver g ∧ (isGameOver g).2 = g := by
  have h : (isGameOver g).2 = g := by
    simp only [isGameOver]
    split_ifs <;> rfl
  exact ⟨by rw [h], h⟩

/-- C8: when the destination file cannot be created, savePGN reports the
failure, returns a non-nil error, and no file content at all is written. -/
theorem claim_savePGN_create_failure (env : SaveEnv) (st : SessionState)
    (g : Game) (fn : String) (h : env.createOk = false) :
    (savePGN env st g fn).err = true ∧
    (savePGN env st g fn).written = none ∧
    (savePGN env st g fn).output = ["Unable to create " ++ fn] := by
  simp [savePGN, h]

/-- C8 witness: saving to an uncreatable path at a concrete input. -/
theorem claim_savePGN_create_failure_witness :
    (savePGN ⟨false, true, 2026, 10, 11⟩ ⟨false, "sf"⟩ ⟨[], [], "*", "", ⟨[]⟩⟩
      "d/x.pgn").err = true ∧
    (savePGN ⟨false, true, 2026, 10, 11⟩ ⟨false, "sf"⟩ ⟨[], [], "*", "", ⟨[]⟩⟩
      "d/x.pgn").written = none ∧
    (savePGN ⟨false, true, 2026, 10, 11⟩ ⟨false, "sf"⟩ ⟨[], [], "*", "", ⟨[]⟩⟩
      "d/x.pgn").output = ["Unable to create " ++ "d/x.pgn"] :=
  claim_savePGN_create_failure ⟨false, true, 2026, 10, 11⟩ ⟨false, "sf"⟩
    ⟨[], [], "*", "", ⟨[]⟩⟩ "d/x.pgn" rfl

/-- C10: savePGN mutates the record only after file creation succeeds — on a
create failure it returns an error with the record completely unchanged,
while on a write failure the five session tags (Annotator, Date, Result,
White, Black) are already set on the record even though an error is
returned. -/
theorem claim_savePGN_mutation_boundary (env : SaveEnv) (st : SessionState)
    (g : Game) (fn : String) :
    (env.createOk = false →
      (savePGN env st g fn).game = g ∧ (savePGN env st g fn).err = true) ∧
    (env.createOk = true → env.writeOk = false →
      (savePGN env st g fn).err = true ∧
      GetTagPair (some (savePGN env st g fn).game) "Annotator" = "pinata" ∧
      GetTagPair (some (savePGN env st g fn).game) "Date" =
        dateString env.year env.month env.day ∧
      GetTagPair (some (savePGN env st g fn).game) "Result" = g.outcome ∧
      (st.gHumanIsBlack = true →
        GetTagPair (some (savePGN env st g fn).game) "White" = st.gEngineBinary ∧
        GetTagPair (some (savePGN env st g fn).game) "Black" = "Human") ∧
      (st.gHumanIsBlack = false →
        GetTagPair (some (savePGN env st g fn).game) "White" = "Human" ∧
        GetTagPair (some (savePGN env st g fn).game) "Black" = st.gEngineBinary)) := by
  constructor
  · intro h
    simp [savePGN, h]
  · intro hc hw
    have ht := savePGN_tags env st g fn hc
    refine ⟨?_, ht.1, ht.2.1, ht.2.2.1, ht.2.2.2.1, ht.2.2.2.2.1⟩
    simp [savePGN, hc, hw]

/-- C10 witness: at concrete inputs, a create failure leaves the record
unchanged, and a write failure leaves the provenance tag already stamped. -/
theorem claim_savePGN_mutation_boundary_witness :
    (savePGN ⟨false, true, 2026, 10, 11⟩ ⟨false, "sf"⟩ ⟨[], [], "*", "", ⟨[]⟩⟩
      "x.pgn").game = ⟨[], [], "*", "", ⟨[]⟩⟩ ∧
    GetTagPair (some (savePGN ⟨true, false, 2026, 10, 11⟩ ⟨false, "sf"⟩
      ⟨[], [], "*", "", ⟨[]⟩⟩ "x.pgn").game) "Annotator" = "pinata" :=
  ⟨((claim_savePGN_mutation_boundary ⟨false, true, 2026, 10, 11⟩ ⟨false, "sf"⟩
      ⟨[], [], "*", "", ⟨[]⟩⟩ "x.pgn").1 rfl).1,
   (((claim_savePGN_mutation_boundary ⟨true, false, 2026, 10, 11⟩ ⟨false, "sf"⟩
      ⟨[], [], "*", "", ⟨[]⟩⟩ "x.pgn").2 rfl rfl).2.1)⟩

/-- C2: a file whose bytes parse as well-formed notation and seed a playable
game, but whose Annotator tag value is anything other than "pinata", is
rejected: loadPGN reports a rejection message, returns null and leaves the
session state untouched. -/
theorem claim_loadPGN_provenance_gate (env : LoadEnv) (st : SessionState)
    (fn dat : String) (pgn game : Game)
    (hr : env.readFile = some dat) (hp : env.parsePGN dat = some pgn)
    (hn : env.newGame pgn = some game)
    (ha : GetTagPair (some game) "Annotator" ≠ "pinata") :
    loadPGN env st fn = ⟨none, st, [fn ++ " is not generated by Pinata."]⟩ := by
  simp [loadPGN, hr, hp, hn, ha]

/-- C2 witness: a concrete well-formed file with a foreign Annotator tag. -/
theorem claim_loadPGN_provenance_gate_witness :
    loadPGN ⟨some "d",
        fun _ => some ⟨[("Annotator", "lichess"), ("White", "a"), ("Black", "b")],
          [], "*", "", ⟨[]⟩⟩,
        fun g => some g⟩ ⟨false, "e"⟩ "f" =
      ⟨none, ⟨false, "e"⟩, ["f" ++ " is not generated by Pinata."]⟩ :=
  claim_loadPGN_provenance_gate _ ⟨false, "e"⟩ "f" "d"
    ⟨[("Annotator", "lichess"), ("White", "a"), ("Black", "b")], [], "*", "", ⟨[]⟩⟩
    ⟨[("Annotator", "lichess"), ("White", "a"), ("Black", "b")], [], "*", "", ⟨[]⟩⟩
    rfl rfl rfl (by decide)

/-- C4: a file that parses and seeds a playable game is rejected whenever its
White tag value or its Black tag value is the empty string, even when the
Annotator tag holds the correct provenance marker. -/
theorem claim_loadPGN_empty_player_rejection (env : LoadEnv) (st : SessionState)
    (fn dat : String) (pgn game : Game)
    (hr : env.readFile = some dat) (hp : env.parsePGN dat = some pgn)
    (hn : env.newGame pgn = some game)
    (hwb : GetTagPair (some game) "White" = "" ∨ GetTagPair (some game) "Black" = "") :
    loadPGN env st fn = ⟨none, st, [fn ++ " is not generated by Pinata."]⟩ := by
  rcases hwb with h | h <;> simp [loadPGN, hr, hp, hn, h]

/-- C4 witness: a concrete file with the right provenance marker but an
empty White tag is still rejected. -/
theorem claim_loadPGN_empty_player_rejection_witness :
    loadPGN ⟨some "d",
        fun _ => some ⟨[("Annotator", "pinata"), ("White", ""), ("Black", "b")],
          [], "*", "", ⟨[]⟩⟩,
        fun g => some g⟩ ⟨false, "e"⟩ "f" =
      ⟨none, ⟨false, "e"⟩, ["f" ++ " is not generated by Pinata."]⟩ :=
  claim_loadPGN_empty_player_rejection _ ⟨false, "e"⟩ "f" "d"
    ⟨[("Annotator", "pinata"), ("White", ""), ("Black", "b")], [], "*", "", ⟨[]⟩⟩
    ⟨[("Annotator", "pinata"), ("White", ""), ("Black", "b")], [], "*", "", ⟨[]⟩⟩
    rfl rfl rfl (Or.inl (by decide))

/-- C3 counterexample: a file carrying the provenance marker with BOTH the
White and the Black tag equal to "Human" is accepted by the loader, and the
loader sets humanIsBlack = true — the claim demands humanIsBlack = false
whenever the White tag equals "Human". -/
theorem claim_loadPGN_human_side_cex :
    GetTagPair (some (⟨[("Annotator", "pinata"), ("White", "Human"), ("Black", "Human")],
      [], "*", "", ⟨[]⟩⟩ : Game)) "White" = "Human" ∧
    (loadPGN ⟨some "d",
        fun _ => some ⟨[("Annotator", "pinata"), ("White", "Human"), ("Black", "Human")],
          [], "*", "", ⟨[]⟩⟩,
        fun g => some g⟩ ⟨false, "e"⟩ "f").game =
      some ⟨[("Annotator", "pinata"), ("White", "Human"), ("Black", "Human")],
        [], "*", "", ⟨[]⟩⟩ ∧
    (loadPGN ⟨some "d",
        fun _ => some ⟨[("Annotator", "pinata"), ("White", "Human"), ("Black", "Human")],
          [], "*", "", ⟨[]⟩⟩,
        fun g => some g⟩ ⟨false, "e"⟩ "f").state.gHumanIsBlack = true := by
  decide

/-- C3 (amended): for every file accepted by the loader, if the Black tag
value equals "Human" then loadPGN sets humanIsBlack = true and takes the
engine binary name from the White tag; and if the White tag value equals
"Human" while the Black tag does not, loadPGN sets humanIsBlack = false and
takes the engine binary name from the Black tag (when both tags are "Human"
the Black branch applies). -/
theorem claim_loadPGN_human_side (env : LoadEnv) (st : SessionState)
    (fn dat : String) (pgn game : Game)
    (hr : env.readFile = some dat) (hp : env.parsePGN dat = some pgn)
    (hn : env.newGame pgn = some game)
    (ha : GetTagPair (some game) "Annotator" = "pinata")
    (hw : GetTagPair (some game) "White" ≠ "")
    (hb : GetTagPair (some game) "Black" ≠ "") :
    (GetTagPair (some game) "Black" = "Human" →
      loadPGN env st fn = ⟨some game, ⟨true, GetTagPair (some game) "White"⟩,
        ["You are playing Black against " ++ GetTagPair (some game) "White" ++ "."]⟩) ∧
    (GetTagPair (some game) "White" = "Human" →
      GetTagPair (some game) "Black" ≠ "Human" →
      loadPGN env st fn = ⟨some game, ⟨false, GetTagPair (some game) "Black"⟩,
        ["You are playing White against " ++ GetTagPair (some game) "Black" ++ "."]⟩) := by
  constructor
  · intro h
    simp [loadPGN, hr, hp, hn, ha, hw, hb, h]
  · intro _ hB
    simp [loadPGN, hr, hp, hn, ha, hw, hb, hB]

/-- C3 witness: a concrete accepted file with Black = "Human" restores a
black-sided human playing against the engine named by the White tag. -/
theorem claim_loadPGN_human_side_witness :
    loadPGN ⟨some "d",
        fun _ => some ⟨[("Annotator", "pinata"), ("White", "sf"), ("Black", "Human")],
          [], "*", "", ⟨[]⟩⟩,
        fun g => some g⟩ ⟨false, "e"⟩ "f" =
      ⟨some ⟨[("Annotator", "pinata"), ("White", "sf"), ("Black", "Human")],
        [], "*", "", ⟨[]⟩⟩,
       ⟨true, GetTagPair (some ⟨[("Annotator", "pinata"), ("White", "sf"),
         ("Black", "Human")], [], "*", "", ⟨[]⟩⟩) "White"⟩,
       ["You are playing Black against " ++
         GetTagPair (some ⟨[("Annotator", "pinata"), ("White", "sf"),
           ("Black", "Human")], [], "*", "", ⟨[]⟩⟩) "White" ++ "."]⟩ :=
  (claim_loadPGN_human_side _ ⟨false, "e"⟩ "f" "d"
    ⟨[("Annotator", "pinata"), ("White", "sf"), ("Black", "Human")], [], "*", "", ⟨[]⟩⟩
    ⟨[("Annotator", "pinata"), ("White", "sf"), ("Black", "Human")], [], "*", "", ⟨[]⟩⟩
    rfl rfl rfl (by decide) (by decide) (by decide)).1 (by decide)

theorem pad2_length (n : Nat) (h : n ≤ 99) : (pad2 n).length = 2 := by
  have hall : ∀ m, m < 100 → (pad2 m).length = 2 := by decide
  exact hall n (by omega)

/-- C7: on a successful save, the record carries Annotator = "pinata", a
Date tag in zero-padded YYYY-MM-DD form, Result = the outcome string, the
literal "Human" on the human side's player tag and the engine identifier on
the other, and the file receives exactly the canonical serialization of the
record followed by a single trailing newline. -/
theorem claim_savePGN_success (env : SaveEnv) (st : SessionState) (g : Game)
    (fn : String) (hc : env.createOk = true) (hw : env.writeOk = true)
    (hm : env.month ≤ 99) (hd : env.day ≤ 99) :
    (savePGN env st g fn).err = false ∧
    (savePGN env st g fn).written =
      some (gameString (savePGN env st g fn).game ++ "\n") ∧
    GetTagPair (some (savePGN env st g fn).game) "Annotator" = "pinata" ∧
    GetTagPair (some (savePGN env st g fn).game) "Date" =
      toString env.year ++ "-" ++ pad2 env.month ++ "-" ++ pad2 env.day ∧
    (pad2 env.month).length = 2 ∧
    (pad2 env.day).length = 2 ∧
    GetTagPair (some (savePGN env st g fn).game) "Result" = g.outcome ∧
    (st.gHumanIsBlack = true →
      GetTagPair (some (savePGN env st g fn).game) "White" = st.gEngineBinary ∧
      GetTagPair (some (savePGN env st g fn).game) "Black" = "Human") ∧
    (st.gHumanIsBlack = false →
      GetTagPair (some (savePGN env st g fn).game) "White" = "Human" ∧
      GetTagPair (some (savePGN env st g fn).game) "Black" = st.gEngineBinary) := by
  have ht := savePGN_tags env st g fn hc
  refine ⟨?_, ?_, ht.1, ht.2.1, pad2_length _ hm, pad2_length _ hd, ht.2.2.1,
    ht.2.2.2.1, ht.2.2.2.2.1⟩
  · simp [savePGN, hc, hw]
  · simp [savePGN, hc, hw]

/-- C7 witness: a concrete successful save with the human playing White. -/
theorem claim_savePGN_success_witness :
    (savePGN ⟨true, true, 2026, 5, 7⟩ ⟨false, "sf"⟩ ⟨[], ["e4"], "*", "", ⟨[]⟩⟩
      "x.pgn").err = false ∧
    (savePGN ⟨true, true, 2026, 5, 7⟩ ⟨false, "sf"⟩ ⟨[], ["e4"], "*", "", ⟨[]⟩⟩
      "x.pgn").written =
      some (gameString (savePGN ⟨true, true, 2026, 5, 7⟩ ⟨false, "sf"⟩
        ⟨[], ["e4"], "*", "", ⟨[]⟩⟩ "x.pgn").game ++ "\n") ∧
    GetTagPair (some (savePGN ⟨true, true, 2026, 5, 7⟩ ⟨false, "sf"⟩
      ⟨[], ["e4"], "*", "", ⟨[]⟩⟩ "x.pgn").game) "Date" =
      toString 2026 ++ "-" ++ pad2 5 ++ "-" ++ pad2 7 ∧
    GetTagPair (some (savePGN ⟨true, true, 2026, 5, 7⟩ ⟨false, "sf"⟩
      ⟨[], ["e4"], "*", "", ⟨[]⟩⟩ "x.pgn").game) "White" = "Human" ∧
    GetTagPair (some (savePGN ⟨true, true, 2026, 5, 7⟩ ⟨false, "sf"⟩
      ⟨[], ["e4"], "*", "", ⟨[]⟩⟩ "x.pgn").game) "Black" = "sf" := by
  have h := claim_savePGN_success ⟨true, true, 2026, 5, 7⟩ ⟨false, "sf"⟩
    ⟨[], ["e4"], "*", "", ⟨[]⟩⟩ "x.pgn" rfl rfl (by decide) (by decide)
  exact ⟨h.1, h.2.1, h.2.2.2.1, (h.2.2.2.2.2.2.2.2 rfl).1, (h.2.2.2.2.2.2.2.2 rfl).2⟩

/-- The terminal outcome values of the collaborator. -/
def terminalOutcome (o : String) : Prop :=
  o = DrawOutcome ∨ o = WhiteWon ∨ o = BlackWon

/-- The collaborator method classifications that end a game by leaving no
legal move. -/
def noLegalMoveMethod (m : String) : Prop :=
  m = "Checkmate" ∨ m = "Stalemate"

/-- Modelled from the spec (§4.5, §6): the collaborator contract tying the
legal-move enumeration of the current position to the outcome signal — the
enumeration is empty exactly when the outcome is terminal via a
no-legal-move method.  The rules logic establishing this is the external
collaborator's and is out of scope for the session layer. -/
def OutcomeContract (g : Game) : Prop :=
  g.position.validMoves = [] ↔ terminalOutcome g.outcome ∧ noLegalMoveMethod g.method

/-- C9: under the collaborator contract, the move-advisory string is empty
exactly when the outcome is terminal via a no-legal-move method, it is
non-empty whenever the outcome is undecided, the completion closure is
empty exactly when the display string is, and the enumeration depends only
on the record's current position. -/
theorem claim_validMoves_empty_iff_terminal (g : Game) (s : String)
    (h : OutcomeContract g) :
    (validMoves g = "" ↔ terminalOutcome g.outcome ∧ noLegalMoveMethod g.method) ∧
    (g.outcome = NoOutcome → validMoves g ≠ "") ∧
    (validMovesConstructor g s = [] ↔ validMoves g = "") ∧
    (∀ g2 : Game, g2.position = g.position → validMoves g2 = validMoves g) := by
  have hcore := validMoves_empty_iff_no_moves g
  refine ⟨hcore.trans h, ?_, ?_, ?_⟩
  · intro ho hempty
    have hterm := ((hcore.trans h).1 hempty).1
    rw [ho] at hterm
    simp [terminalOutcome, NoOutcome, DrawOutcome, WhiteWon, BlackWon] at hterm
  · rw [hcore]
    simp [validMovesConstructor]
  · intro g2 hp2
    simp only [validMoves, encodeSAN, hp2]

/-- C9 witness: a checkmated record with no legal moves, and an undecided
record with one legal move, both satisfying the collaborator contract. -/
theorem claim_validMoves_empty_iff_terminal_witness :
    validMoves ⟨[], [], "1-0", "Checkmate", ⟨[]⟩⟩ = "" ∧
    validMovesConstructor ⟨[], [], "1-0", "Checkmate", ⟨[]⟩⟩ "x" = [] ∧
    validMoves ⟨[], [], "*", "", ⟨[⟨"e4"⟩]⟩⟩ ≠ "" := by
  have h1 := claim_validMoves_empty_iff_terminal ⟨[], [], "1-0", "Checkmate", ⟨[]⟩⟩ "x"
    (by simp [OutcomeContract, terminalOutcome, noLegalMoveMethod, DrawOutcome,
      WhiteWon, BlackWon])
  have h2 := claim_validMoves_empty_iff_terminal ⟨[], [], "*", "", ⟨[⟨"e4"⟩]⟩⟩ "x"
    (by simp [OutcomeContract, terminalOutcome, noLegalMoveMethod, DrawOutcome,
      WhiteWon, BlackWon])
  have hv : validMoves ⟨[], [], "1-0", "Checkmate", ⟨[]⟩⟩ = "" :=
    h1.1.2 ⟨Or.inr (Or.inl rfl), Or.inl rfl⟩
  exact ⟨hv, h1.2.2.1.2 hv, h2.2.1 rfl⟩

/-- C1 counterexample: with the session configuration humanIsBlack = false
and engine binary name literally "Human", a successful save followed by a
load of the very file written (through a collaborator that parses the
serialization back to the saved record) yields humanIsBlack = true — the
configuration is not restored. -/
theorem claim_roundTrip_cex :
    ((⟨false, "Human"⟩ : SessionState)).gHumanIsBlack = false ∧
    (savePGN ⟨true, true, 2026, 10, 11⟩ ⟨false, "Human"⟩
      ⟨[], [], "*", "", ⟨[]⟩⟩ "f").err = false ∧
    (loadPGN ⟨(savePGN ⟨true, true, 2026, 10, 11⟩ ⟨false, "Human"⟩
        ⟨[], [], "*", "", ⟨[]⟩⟩ "f").written,
      fun _ => some (savePGN ⟨true, true, 2026, 10, 11⟩ ⟨false, "Human"⟩
        ⟨[], [], "*", "", ⟨[]⟩⟩ "f").game,
      fun g => some g⟩ ⟨false, "Human"⟩ "f").game =
      some (savePGN ⟨true, true, 2026, 10, 11⟩ ⟨false, "Human"⟩
        ⟨[], [], "*", "", ⟨[]⟩⟩ "f").game ∧
    (loadPGN ⟨(savePGN ⟨true, true, 2026, 10, 11⟩ ⟨false, "Human"⟩
        ⟨[], [], "*", "", ⟨[]⟩⟩ "f").written,
      fun _ => some (savePGN ⟨true, true, 2026, 10, 11⟩ ⟨false, "Human"⟩
        ⟨[], [], "*", "", ⟨[]⟩⟩ "f").game,
      fun g => some g⟩ ⟨false, "Human"⟩ "f").state.gHumanIsBlack = true := by
  decide

/-- C1 (amended): for every live game record and session configuration whose
engine binary name is neither empty nor the literal "Human", saving with
savePGN (with file creation and write succeeding) and then loading the
written file with loadPGN — through a collaborator whose parser recovers the
tags and move history of the serialized record, as the spec's §6 round-trip
contract provides — succeeds and restores the same humanIsBlack value and
the same engineBinaryName, and the reloaded record's move history and tags
(other than Date) equal those of the record as annotated by the save. -/
theorem claim_roundTrip (env : SaveEnv) (env2 : LoadEnv) (st st2 : SessionState)
    (g pgn g2 : Game) (fn : String)
    (hc : env.createOk = true) (hwk : env.writeOk = true)
    (he1 : st.gEngineBinary ≠ "") (he2 : st.gEngineBinary ≠ "Human")
    (hr : env2.readFile = (savePGN env st g fn).written)
    (hp : env2.parsePGN (gameString (savePGN env st g fn).game ++ "\n") = some pgn)
    (hn : env2.newGame pgn = some g2)
    (htags : g2.tags = (savePGN env st g fn).game.tags)
    (hmoves : g2.moveHistory = (savePGN env st g fn).game.moveHistory) :
    (loadPGN env2 st2 fn).game = some g2 ∧
    (loadPGN env2 st2 fn).state.gHumanIsBlack = st.gHumanIsBlack ∧
    (loadPGN env2 st2 fn).state.gEngineBinary = st.gEngineBinary ∧
    g2.moveHistory = g.moveHistory ∧
    (∀ k : String, k ≠ "Date" →
      GetTagPair (some g2) k = GetTagPair (some (savePGN env st g fn).game) k) := by
  have ht := savePGN_tags env st g fn hc
  have hwrt : (savePGN env st g fn).written =
      some (gameString (savePGN env st g fn).game ++ "\n") := by
    simp [savePGN, hc, hwk]
  rw [hwrt] at hr
  have hget : ∀ k, GetTagPair (some g2) k =
      GetTagPair (some (savePGN env st g fn).game) k :=
    fun k => getTag_tags_eq g2 _ htags k
  have hA : GetTagPair (some g2) "Annotator" = "pinata" := (hget _).trans ht.1
  have hmv : g2.moveHistory = g.moveHistory := hmoves.trans ht.2.2.2.2.2
  cases hbv : st.gHumanIsBlack with
  | true =>
    have hWB := ht.2.2.2.1 hbv
    have hW : GetTagPair (some g2) "White" = st.gEngineBinary :=
      (hget _).trans hWB.1
    have hB : GetTagPair (some g2) "Black" = "Human" := (hget _).trans hWB.2
    refine ⟨?_, ?_, ?_, hmv, fun k _ => hget k⟩ <;>
      simp [loadPGN, hr, hp, hn, hA, hW, hB, he1]
  | false =>
    have hWB := ht.2.2.2.2.1 hbv
    have hW : GetTagPair (some g2) "White" = "Human" := (hget _).trans hWB.1
    have hB : GetTagPair (some g2) "Black" = st.gEngineBinary :=
      (hget _).trans hWB.2
    refine ⟨?_, ?_, ?_, hmv, fun k _ => hget k⟩ <;>
      simp [loadPGN, hr, hp, hn, hA, hW, hB, he1, he2]

/-- C1 witness: a concrete record with one move, saved with a human playing
White against "sf" and reloaded through a faithful collaborator parse,
restores the configuration and the record's tags and history. -/
theorem claim_roundTrip_witness :
    (loadPGN ⟨(savePGN ⟨true, true, 2026, 10, 11⟩ ⟨false, "sf"⟩
        ⟨[], ["e4"], "*", "", ⟨[]⟩⟩ "f").written,
      fun _ => some (savePGN ⟨true, true, 2026, 10, 11⟩ ⟨false, "sf"⟩
        ⟨[], ["e4"], "*", "", ⟨[]⟩⟩ "f").game,
      fun g => some g⟩ ⟨true, "e"⟩ "f").game =
      some (savePGN ⟨true, true, 2026, 10, 11⟩ ⟨false, "sf"⟩
        ⟨[], ["e4"], "*", "", ⟨[]⟩⟩ "f").game ∧
    (loadPGN ⟨(savePGN ⟨true, true, 2026, 10, 11⟩ ⟨false, "sf"⟩
        ⟨[], ["e4"], "*", "", ⟨[]⟩⟩ "f").written,
      fun _ => some (savePGN ⟨true, true, 2026, 10, 11⟩ ⟨false, "sf"⟩
        ⟨[], ["e4"], "*", "", ⟨[]⟩⟩ "f").game,
      fun g => some g⟩ ⟨true, "e"⟩ "f").state.gHumanIsBlack = false ∧
    (loadPGN ⟨(savePGN ⟨true, true, 2026, 10, 11⟩ ⟨false, "sf"⟩
        ⟨[], ["e4"], "*", "", ⟨[]⟩⟩ "f").written,
      fun _ => some (savePGN ⟨true, true, 2026, 10, 11⟩ ⟨false, "sf"⟩
        ⟨[], ["e4"], "*", "", ⟨[]⟩⟩ "f").game,
      fun g => some g⟩ ⟨true, "e"⟩ "f").state.gEngineBinary = "sf" ∧
    (savePGN ⟨true, true, 2026, 10, 11⟩ ⟨false, "sf"⟩
      ⟨[], ["e4"], "*", "", ⟨[]⟩⟩ "f").game.moveHistory = ["e4"] := by
  have h := claim_roundTrip ⟨true, true, 2026, 10, 11⟩
    ⟨(savePGN ⟨true, true, 2026, 10, 11⟩ ⟨false, "sf"⟩
        ⟨[], ["e4"], "*", "", ⟨[]⟩⟩ "f").written,
      fun _ => some (savePGN ⟨true, true, 2026, 10, 11⟩ ⟨false, "sf"⟩
        ⟨[], ["e4"], "*", "", ⟨[]⟩⟩ "f").game,
      fun g => some g⟩
    ⟨false, "sf"⟩ ⟨true, "e"⟩ ⟨[], ["e4"], "*", "", ⟨[]⟩⟩
    (savePGN ⟨true, true, 2026, 10, 11⟩ ⟨false, "sf"⟩
      ⟨[], ["e4"], "*", "", ⟨[]⟩⟩ "f").game
    (savePGN ⟨true, true, 2026, 10, 11⟩ ⟨false, "sf"⟩
      ⟨[], ["e4"], "*", "", ⟨[]⟩⟩ "f").game
    "f" rfl rfl (by decide) (by decide) rfl rfl rfl rfl rfl
  exact ⟨h.1, h.2.1, h.2.2.1, h.2.2.2.1.symm ▸ rfl⟩

end Pinata
